import Mathlib

/-!
Shallow embedding of `gopro-control` (files `gpc.py` and `GoPro.py`):
a command-line remote control for a GoPro camera.  Python functions are
modelled as Lean functions; Python exceptions are modelled by an explicit
exception type threaded through `Except`; the HTTP transport and the UDP
sockets are modelled by explicit oracles / effect records so that the
dispatch logic stays a pure function of its inputs.
-/

namespace Gpc

/-- The fifteen members of `CommandEnum` in `gpc.py`. -/
inductive CommandEnum where
  | DEFAULT_BOOT_MODE
  | DISPLAY_ON
  | DISPLAY_OFF
  | GET_INFO
  | GET_STATUS
  | GET_BATTERY_LEVEL
  | POWER_OFF
  | RECORD_START
  | RECORD_STOP
  | STREAM
  | STREAM_BITRATE
  | STREAM_RESOLUTION
  | VIDEO_RESOLUTION
  | WAKE
  | ZOOM
deriving DecidableEq, Repr

/-- The `.value` string of each enum member (`gpc.py` lines 32-46). -/
def CommandEnum.value : CommandEnum → String
  | .DEFAULT_BOOT_MODE => "default_boot_mode"
  | .DISPLAY_ON => "display_on"
  | .DISPLAY_OFF => "display_off"
  | .GET_INFO => "get_info"
  | .GET_STATUS => "get_status"
  | .GET_BATTERY_LEVEL => "get_battery_level"
  | .POWER_OFF => "power_off"
  | .RECORD_START => "record_start"
  | .RECORD_STOP => "record_stop"
  | .STREAM => "stream"
  | .STREAM_BITRATE => "stream_bitrate"
  | .STREAM_RESOLUTION => "stream_resolution"
  | .VIDEO_RESOLUTION => "video_resolution"
  | .WAKE => "wake"
  | .ZOOM => "zoom"

/-- One entry of the `Command.definitions` dict: an arity, a URL-path
template and an optional value mapping (friendly token to device code). -/
structure CommandDef where
  arity : Nat
  template : String
  mapping : Option (List (String × String))
deriving Repr

/-- Ordered association-list lookup, modelling Python dict lookup
(`d[k]` / `k in d`); keys are unique in every dict of the source. -/
def dictFind {α β : Type} [DecidableEq α] : List (α × β) → α → Option β
  | [], _ => none
  | p :: rest, k => if p.1 = k then some p.2 else dictFind rest k

/-- Dict `Command.definitions` from `gpc.py` lines 49-65, in source order. -/
def Command.definitions : List (CommandEnum × CommandDef) :=
  [ (.DEFAULT_BOOT_MODE,
      ⟨1, "/setting/53/\x7b\x7d", some [("video", "0"), ("photo", "1"), ("multishot", "2")]⟩),
    (.DISPLAY_ON, ⟨0, "/setting/58/1", none⟩),
    (.DISPLAY_OFF, ⟨0, "/setting/58/0", none⟩),
    (.GET_INFO, ⟨0, "", none⟩),
    (.GET_STATUS, ⟨0, "/status", none⟩),
    (.GET_BATTERY_LEVEL, ⟨0, "/status", none⟩),
    (.POWER_OFF, ⟨0, "/command/system/sleep", none⟩),
    (.RECORD_START, ⟨0, "/command/shutter?p=1", none⟩),
    (.RECORD_STOP, ⟨0, "/command/shutter?p=0", none⟩),
    (.STREAM, ⟨0, "/execute?p1=gpStream&a1=proto_v2&c1=restart", none⟩),
    (.STREAM_BITRATE, ⟨1, "/setting/62/\x7b\x7d", none⟩),
    (.STREAM_RESOLUTION,
      ⟨1, "/setting/64/\x7b\x7d", some [("720p", "7"), ("480p", "4"), ("240p", "1")]⟩),
    (.VIDEO_RESOLUTION,
      ⟨1, "/setting/2/\x7b\x7d", some [("4k", "1"), ("1440p", "7"), ("1080p", "9"), ("720p", "12")]⟩),
    (.WAKE, ⟨0, "", none⟩),
    (.ZOOM, ⟨1, "/command/digital_zoom?range_pcnt=\x7b\x7d", none⟩) ]

/-- Lookup `Command.definitions[command]` for a command that is a key of the
dict.  Every `CommandEnum` member is a key (see `dictFind_definitions`),
so the fallback entry is unreachable. -/
def getDef (c : CommandEnum) : CommandDef :=
  match dictFind Command.definitions c with
  | some d => d
  | none => ⟨0, "", none⟩

/-- The Python exceptions the embedded code can raise. -/
inductive ParseError where
  | unknownCommand (name : String)
deriving DecidableEq, Repr

/-- Exception classes observed in the embedded code.  `valueError` is the
class the command loop catches (`except ValueError`); `nameError` is raised
when an f-string mentions the undefined name `self` inside the classmethod
`Message.from_text`; `indexError` comes from indexing past the end of a
sequence; `keyError` and `typeError` come from dict indexing in the
battery-level path; `fromhexValueError` is the `ValueError` raised by
`bytes.fromhex` on a non-hex string. -/
inductive PyExc where
  | valueError (e : ParseError)
  | nameError
  | indexError
  | keyError (k : String)
  | typeError
  | fromhexValueError
deriving DecidableEq, Repr

/-- Whether the command loop's `except ValueError` (gpc.py line 146)
catches the exception: only members of Python's `ValueError` class. -/
def caughtByCommandLoop : PyExc → Bool
  | .valueError _ => true
  | .fromhexValueError => true
  | _ => false

/-- The `GoPro` session object of `gpc.py` (connection parameters read
from the configuration, immutable afterwards). -/
structure GoPro where
  ap_ssid : String
  ap_password : String
  ip_address : String
  mac_address : String
  keepalive_period : Nat
deriving DecidableEq, Repr

/-- Class attribute `GoPro.udp_port = 8554`. -/
def GoPro.udp_port : Nat := 8554

/-- A parsed message: a command plus its (already mapped) arguments. -/
structure Message where
  command : CommandEnum
  args : List String
deriving DecidableEq, Repr

/-- The loop `for com, definition in Command.definitions.items(): if
com.value == message_text[0]: command = com` — the last matching key wins
(names are unique, so at most one matches). -/
def findCommand (name : String) : Option CommandEnum :=
  Command.definitions.foldl (fun acc p => if p.1.value = name then some p.1 else acc) none

/-- The mapping loop of `Message.from_text` (gpc.py lines 88-91): each
argument is looked up in the command's value mapping; a missing key leads
to `raise ValueError(f'{self.command.value}: unknown argument ...')`,
whose f-string evaluates the undefined name `self` first and therefore
raises `NameError` instead. -/
def applyMapping (mapping : List (String × String)) : List String → Except PyExc (List String)
  | [] => .ok []
  | arg :: rest =>
    match dictFind mapping arg with
    | none => .error .nameError
    | some v =>
      match applyMapping mapping rest with
      | .ok vs => .ok (v :: vs)
      | .error e => .error e

/-- Classmethod `Message.from_text` (gpc.py lines 72-92).  On an empty token list,
`message_text[0]` raises `IndexError`.  An unknown first token raises
`ValueError`.  On an arity mismatch, the f-string of the raise statement
evaluates the undefined name `self` and raises `NameError` (the
classmethod has no `self` parameter); the same happens for an unknown
mapped argument value inside `applyMapping`. -/
def Message.from_text (tokens : List String) : Except PyExc Message :=
  match tokens with
  | [] => .error .indexError
  | t0 :: rest =>
    match findCommand t0 with
    | none => .error (.valueError (.unknownCommand t0))
    | some command =>
      let dfn := getDef command
      if rest.length ≠ dfn.arity then .error .nameError
      else
        let args := rest.take dfn.arity
        match dfn.mapping with
        | none => .ok ⟨command, args⟩
        | some mapping =>
          match applyMapping mapping args with
          | .ok mappedArgs => .ok ⟨command, mappedArgs⟩
          | .error e => .error e

/-- Structured data as produced by `response.json()`; only the shapes the
battery-level path touches are distinguished. -/
inductive Json where
  | num (n : Int)
  | str (s : String)
  | obj (fields : List (String × Json))
  | null

/-- An HTTP response as seen through `requests.get`: status code plus the
already-parsed structured body (`response.json()`). -/
structure HttpResponse where
  status_code : Nat
  body : Json

/-- Python `resp[k]` on a parsed JSON value: a `KeyError` on a missing
key, a `TypeError` when the value is not a dict. -/
def jsonIndex (j : Json) (k : String) : Except PyExc Json :=
  match j with
  | .obj fields =>
    match dictFind fields k with
    | some v => .ok v
    | none => .error (.keyError k)
  | _ => .error .typeError

/-- The value `send_to` returns: the empty string (wake), the streaming
outcome string, a raw `requests` response object, or the JSON field
extracted by the battery-level path. -/
inductive Reply where
  | str (s : String)
  | response (r : HttpResponse)
  | json (j : Json)

/-- Python truthiness of a reply, as tested by `if reply:` in the command
loop (gpc.py line 150): an empty string is falsy; a `requests` response is
truthy iff `.ok`, i.e. its status code is below 400; a JSON number is
falsy iff zero. -/
def replyTruthy : Reply → Bool
  | .str s => s != ""
  | .response r => decide (r.status_code < 400)
  | .json (.num n) => n != 0
  | .json (.str s) => s != ""
  | .json (.obj fields) => !fields.isEmpty
  | .json .null => false

/-- A UDP datagram as handed to `socket.sendto`, together with whether
`SO_BROADCAST` was set on the socket. -/
structure UdpSend where
  payload : List Nat
  dest_ip : String
  dest_port : Nat
  broadcast : Bool
deriving DecidableEq, Repr

/-- Externally visible effects of dispatching one message. -/
inductive Effect where
  | httpGet (url : String)
  | wolSend (u : UdpSend)
deriving DecidableEq, Repr

/-- Model of `str.format(*args)` restricted to the placeholder form the catalog
templates use (bare `\x7b\x7d` only): placeholders are replaced strictly
in argument order; a placeholder with no argument left raises
`IndexError` in Python, modelled as `none`. -/
def pyFormat : List Char → List String → Option (List Char)
  | [], _ => some []
  | '{' :: '}' :: rest, a :: as => (pyFormat rest as).map (fun t => a.data ++ t)
  | '{' :: '}' :: _, [] => none
  | c :: rest, as => (pyFormat rest as).map (fun t => c :: t)

/-- The hexadecimal value of one character, as `bytes.fromhex` reads it. -/
def hexVal (c : Char) : Option Nat :=
  if '0' ≤ c ∧ c ≤ '9' then some (c.toNat - '0'.toNat)
  else if 'a' ≤ c ∧ c ≤ 'f' then some (c.toNat - 'a'.toNat + 10)
  else if 'A' ≤ c ∧ c ≤ 'F' then some (c.toNat - 'A'.toNat + 10)
  else none

/-- Model of `bytes.fromhex` on a whitespace-free string: consumes two hex digits
per byte; an odd-length tail or a non-hex digit raises `ValueError`
(modelled as `none`). -/
def bytesFromHex : List Char → Option (List Nat)
  | [] => some []
  | [_] => none
  | c1 :: c2 :: rest =>
    match hexVal c1, hexVal c2, bytesFromHex rest with
    | some hi, some lo, some bs => some ((16 * hi + lo) :: bs)
    | _, _, _ => none

/-- Python string repetition `s * n`. -/
def strRepeat (s : String) : Nat → String
  | 0 => ""
  | n + 1 => s ++ strRepeat s n

/-- Function `send_wake_on_lan` (gpc.py lines 165-171): build the hex string
`'FFFFFFFFFFFF' + mac * 16`, decode it with `bytes.fromhex`, and send the
resulting payload on a UDP socket with `SO_BROADCAST` enabled to port 9
at the session's IP address.  `none` models the `ValueError` raised by
`bytes.fromhex` when the MAC is not plain hex. -/
def send_wake_on_lan (gopro : GoPro) : Option UdpSend :=
  let hex_message := "FFFFFFFFFFFF" ++ strRepeat gopro.mac_address 16
  (bytesFromHex hex_message.data).map (fun payload =>
    ⟨payload, gopro.ip_address, 9, true⟩)

/-- Method `Message._build_url` (gpc.py lines 111-112): the session base URL
followed by the command's template with the arguments substituted. -/
def Message.build_url (m : Message) (gopro : GoPro) : Option String :=
  (pyFormat (getDef m.command).template.data m.args).map
    (fun body => "http://" ++ gopro.ip_address ++ "/gp/gpControl" ++ String.mk body)

/-- Method `Message.send_to` (gpc.py lines 94-109), with the HTTP transport as
an oracle from URL to response.  The `GET_BATTERY_LEVEL` branch of the
source recursively dispatches `Message(CommandEnum.GET_STATUS)`, which is
a plain GET of the status URL; that one recursion step is unrolled here.
The returned effect list records the socket activity of the call. -/
def Message.send_to (http : String → HttpResponse) (m : Message) (gopro : GoPro) :
    Except PyExc (Reply × List Effect) :=
  if m.command = CommandEnum.WAKE then
    match send_wake_on_lan gopro with
    | some u => .ok (.str "", [.wolSend u])
    | none => .error .fromhexValueError
  else if m.command = CommandEnum.GET_BATTERY_LEVEL then
    match Message.build_url ⟨CommandEnum.GET_STATUS, []⟩ gopro with
    | none => .error .indexError
    | some url =>
      let r := http url
      match jsonIndex r.body ("status") with
      | .error e => .error e
      | .ok statusObj =>
        match jsonIndex statusObj ("2") with
        | .error e => .error e
        | .ok v => .ok (.json v, [.httpGet url])
  else
    match m.build_url gopro with
    | none => .error .indexError
    | some url =>
      let r := http url
      if m.command = CommandEnum.STREAM then
        .ok (.str (if r.status_code = 200 then "1" else "0"), [.httpGet url])
      else
        .ok (.response r, [.httpGet url])

/-- The fixed keepalive payload (gpc.py line 160). -/
def keepalive_payload : String := "_GPHD_:0:0:2:0.000000\n"

/-- The keepalive loop (gpc.py lines 158-163) observed for a bounded
number of ticks.  Each tick sends one UDP datagram and sleeps; the loop
body contains no exception handler, so a failed send (the oracle `ok`
returning `false` for that tick) propagates out of the `while` and ends
the loop.  The result is the number of sends attempted within the
observation window and whether the loop is still running at its end. -/
def keepaliveRun (ok : Nat → Bool) : Nat → Nat → Nat × Bool
  | 0, _ => (0, true)
  | fuel + 1, t =>
    if ok t then
      let r := keepaliveRun ok fuel (t + 1)
      (r.1 + 1, r.2)
    else (1, false)

end Gpc

namespace GoProV

/-- Enum `Command.CommandEnum` of the `GoPro.py` variant. -/
inductive CommandEnum where
  | WAKE
  | RECORD_START
  | RECORD_STOP
  | VIDEO_RESOLUTION
  | ZOOM
  | POWER_OFF
  | DISPLAY_ON
  | DISPLAY_OFF
  | DEFAULT_BOOT_MODE
  | GET_BATTERY_LIFE
  | BITRATE
deriving DecidableEq, Repr

/-- Dict `Command.definitions` from `GoPro.py` lines 45-56, in source order
(note: the dict has no entry for `WAKE`, and the templates carry no
leading slash — the base URL ends in one). -/
def definitions : List (CommandEnum × Gpc.CommandDef) :=
  [ (.POWER_OFF, ⟨0, "command/system/sleep", none⟩),
    (.ZOOM, ⟨1, "command/digital_zoom?range_pcnt=\x7b\x7d", none⟩),
    (.VIDEO_RESOLUTION,
      ⟨1, "setting/2/\x7b\x7d", some [("4k", "1"), ("1440p", "7"), ("1080p", "9"), ("720p", "12")]⟩),
    (.DEFAULT_BOOT_MODE,
      ⟨1, "setting/53/\x7b\x7d", some [("video", "0"), ("photo", "1"), ("multishot", "2")]⟩),
    (.BITRATE, ⟨1, "setting/62/\x7b\x7d", none⟩),
    (.RECORD_START, ⟨0, "command/shutter?p=1", none⟩),
    (.RECORD_STOP, ⟨0, "command/shutter?p=0", none⟩),
    (.DISPLAY_ON, ⟨0, "setting/58/1", none⟩),
    (.DISPLAY_OFF, ⟨0, "setting/58/0", none⟩),
    (.GET_BATTERY_LIFE, ⟨0, "setting/58/0", none⟩) ]

/-- Method `Message._build_url` of `GoPro.py` (lines 88-89): `gopro.url` is
`'http://' + ip + '/gp/gpControl/'` (set in `GoPro.__init__`), followed by
the command's template with the arguments substituted.  `none` models the
`KeyError` for a command absent from the dict or the `IndexError` of a
placeholder with no argument. -/
def build_url (gopro : Gpc.GoPro) (c : CommandEnum) (args : List String) : Option String :=
  match Gpc.dictFind definitions c with
  | none => none
  | some d =>
    (Gpc.pyFormat d.template.data args).map
      (fun body => "http://" ++ gopro.ip_address ++ "/gp/gpControl/" ++ String.mk body)

/-- Method `Message.send_to` of `GoPro.py` (lines 84-86): unconditionally issue
`requests.get(self._build_url(gopro))` and return nothing; the effect
records the single GET. -/
def send_to (gopro : Gpc.GoPro) (c : CommandEnum) (args : List String) : Option Gpc.Effect :=
  (build_url gopro c args).map Gpc.Effect.httpGet

end GoProV

/-- A concrete session used for concrete evaluations: the camera's usual
access-point address with a 12-hex-digit MAC. -/
def g0 : Gpc.GoPro := ⟨"ssid", "pass", "10.5.5.9", "AABBCCDDEEFF", 2500⟩

/-- Mock endpoint answering every GET with HTTP 200 and an empty body. -/
def http200 : String → Gpc.HttpResponse := fun _ => ⟨200, Gpc.Json.null⟩

/-- Mock endpoint answering every GET with HTTP 201 (a success status). -/
def http201 : String → Gpc.HttpResponse := fun _ => ⟨201, Gpc.Json.null⟩

/-- Mock endpoint answering every GET with HTTP 500. -/
def http500 : String → Gpc.HttpResponse := fun _ => ⟨500, Gpc.Json.null⟩

/-- Mock status endpoint whose body parses to the structured data
`\x7b"status": \x7b"2": 87\x7d\x7d`. -/
def httpStatusMock : String → Gpc.HttpResponse :=
  fun _ => ⟨200, Gpc.Json.obj [("status", Gpc.Json.obj [("2", Gpc.Json.num 87)])]⟩

/-- The URL the STREAM command renders for a session. -/
def streamUrl (g : Gpc.GoPro) : String :=
  "http://" ++ g.ip_address ++ "/gp/gpControl" ++ "/execute?p1=gpStream&a1=proto_v2&c1=restart"

/-- The URL the GET_STATUS command renders for a session. -/
def statusUrl (g : Gpc.GoPro) : String :=
  "http://" ++ g.ip_address ++ "/gp/gpControl" ++ "/status"

/-- The wake datagram of the session `g0` (MAC bytes AA BB CC DD EE FF). -/
def uW : Gpc.UdpSend :=
  ⟨List.replicate 6 255 ++ List.flatten (List.replicate 16 [170, 187, 204, 221, 238, 255]),
   "10.5.5.9", 9, true⟩

/-! Theorems.  The claim theorems below settle the C1-C10 claims; the
unnamed-helper theorems before them supply the induction machinery for
the wake-packet arithmetic. -/

theorem dictFind_definitions (c : Gpc.CommandEnum) :
    Gpc.dictFind Gpc.Command.definitions c = some (Gpc.getDef c) := by
  cases c <;> rfl

theorem twoStepInduction {motive : List Char → Prop}
    (h0 : motive []) (h1 : ∀ c, motive [c])
    (h2 : ∀ c1 c2 rest, motive rest → motive (c1 :: c2 :: rest)) :
    ∀ l, motive l
  | [] => h0
  | [c] => h1 c
  | c1 :: c2 :: rest => h2 c1 c2 rest (twoStepInduction h0 h1 h2 rest)

theorem bytesFromHex_append (l2 : List Char) :
    ∀ (l1 : List Char) (bs1 : List Nat), Gpc.bytesFromHex l1 = some bs1 →
      Gpc.bytesFromHex (l1 ++ l2) = (Gpc.bytesFromHex l2).map (fun bs2 => bs1 ++ bs2) := by
  intro l1
  induction l1 using twoStepInduction with
  | h0 =>
    intro bs1 h
    obtain rfl : ([] : List Nat) = bs1 := Option.some.inj h
    cases hb : Gpc.bytesFromHex l2 <;> simp [hb]
  | h1 c =>
    intro bs1 h
    exact Option.noConfusion h
  | h2 c1 c2 rest ihr =>
    intro bs1 h
    simp only [Gpc.bytesFromHex] at h
    split at h
    next hi lo bs h1 h2 h3 =>
      obtain rfl : (16 * hi + lo) :: bs = bs1 := Option.some.inj h
      rw [List.cons_append, List.cons_append]
      simp only [Gpc.bytesFromHex, h1, h2]
      rw [ihr bs h3]
      cases hb : Gpc.bytesFromHex l2 <;> simp [hb]
    next =>
      exact Option.noConfusion h

theorem bytesFromHex_total : ∀ (l : List Char), l.length % 2 = 0 →
    (∀ c ∈ l, (Gpc.hexVal c).isSome = true) →
    ∃ bs, Gpc.bytesFromHex l = some bs ∧ bs.length = l.length / 2 := by
  intro l
  induction l using twoStepInduction with
  | h0 => intro _ _; exact ⟨[], rfl, rfl⟩
  | h1 c => intro h _; simp at h
  | h2 c1 c2 rest ihr =>
    intro heven hhex
    obtain ⟨hi, h1⟩ := Option.isSome_iff_exists.mp (hhex c1 (by simp))
    obtain ⟨lo, h2⟩ := Option.isSome_iff_exists.mp (hhex c2 (by simp))
    have heven' : rest.length % 2 = 0 := by simp [List.length_cons] at heven; omega
    obtain ⟨bs, hbs, hlen⟩ := ihr heven' (fun c hc => hhex c (by simp [hc]))
    refine ⟨(16 * hi + lo) :: bs, ?_, ?_⟩
    · simp only [Gpc.bytesFromHex, h1, h2, hbs]
    · simp only [List.length_cons]; omega

theorem bytesFromHex_strRepeat (s : String) (mb : List Nat)
    (h : Gpc.bytesFromHex s.data = some mb) :
    ∀ n, Gpc.bytesFromHex (Gpc.strRepeat s n).data =
      some (List.flatten (List.replicate n mb)) := by
  intro n
  induction n with
  | zero => rfl
  | succ n ih =>
    have hdata : (Gpc.strRepeat s (n + 1)).data = s.data ++ (Gpc.strRepeat s n).data := by
      simp [Gpc.strRepeat, String.data_append]
    rw [hdata, bytesFromHex_append _ s.data mb h, ih]
    simp [List.replicate_succ]

theorem length_flatten_replicate {α : Type} (n : Nat) (xs : List α) :
    (List.flatten (List.replicate n xs)).length = n * xs.length := by
  induction n with
  | zero => simp
  | succ n ih => simp [List.replicate_succ, ih, Nat.succ_mul]; omega

/-- C1: for `parse(["zoom"])` — a known command of arity 1 given 0
arguments — the spec promises the recoverable ParseError
`ArityMismatch(expected=1, got=0)`, logged and skipped by the command
loop.  In the code, the raise statement's f-string dereferences the
undefined name `self` inside the classmethod, so the call raises
`NameError` instead, which the command loop's `except ValueError` does
not catch: the arity-mismatch path crashes the process rather than being
recovered. -/
theorem from_text_arity_mismatch_raises_nameError :
    Gpc.Message.from_text ["zoom"] = .error .nameError ∧
    (Gpc.getDef Gpc.CommandEnum.ZOOM).arity = 1 ∧
    Gpc.caughtByCommandLoop .nameError = false :=
  ⟨rfl, rfl, rfl⟩

/-- C2: for a command with a declared value mapping and an argument that
is not a key of the mapping, the spec promises the recoverable ParseError
`UnknownArgumentValue(command, value)` caught, logged and skipped by the
command loop.  In the code the raise statement's f-string dereferences
the undefined name `self` inside the classmethod, so each of the three
mapped commands raises an uncaught `NameError` on a bad token, while the
valid-token path still succeeds with the mapped device code. -/
theorem from_text_unknown_mapping_value_raises_nameError :
    Gpc.Message.from_text ["video_resolution", "bad_token"] = .error .nameError ∧
    Gpc.Message.from_text ["stream_resolution", "bad_token"] = .error .nameError ∧
    Gpc.Message.from_text ["default_boot_mode", "bad_token"] = .error .nameError ∧
    Gpc.caughtByCommandLoop .nameError = false ∧
    Gpc.Message.from_text ["video_resolution", "4k"] =
      .ok ⟨Gpc.CommandEnum.VIDEO_RESOLUTION, ["1"]⟩ :=
  ⟨rfl, rfl, rfl, rfl, rfl⟩

/-- C3 counterexample: HTTP 201 is a success status (2xx), yet
dispatching the STREAM command against an endpoint answering 201 yields
reply "0" — the code compares the status to 200 exactly, so the claim
that every HTTP success status maps to reply "1" is false. -/
theorem stream_success_201_yields_zero :
    (200 ≤ 201 ∧ 201 < 300) ∧
    Gpc.Message.send_to http201 ⟨Gpc.CommandEnum.STREAM, []⟩ g0 =
      .ok (.str "0", [.httpGet (streamUrl g0)]) :=
  ⟨⟨by omega, by omega⟩, rfl⟩

/-- C3 (amended): dispatching the STREAM command performs the HTTP call
and maps exactly HTTP status 200 to the logical reply "1" and every
other status to "0", the raw status being discarded; in particular a
mock endpoint returning 200 yields "1" and one returning 500 yields
"0". -/
theorem stream_reply_binary_outcome :
    (∀ (g : Gpc.GoPro) (r : Gpc.HttpResponse),
      Gpc.Message.send_to (fun _ => r) ⟨Gpc.CommandEnum.STREAM, []⟩ g =
        .ok (.str (if r.status_code = 200 then "1" else "0"), [.httpGet (streamUrl g)])) ∧
    Gpc.Message.send_to http200 ⟨Gpc.CommandEnum.STREAM, []⟩ g0 =
      .ok (.str "1", [.httpGet (streamUrl g0)]) ∧
    Gpc.Message.send_to http500 ⟨Gpc.CommandEnum.STREAM, []⟩ g0 =
      .ok (.str "0", [.httpGet (streamUrl g0)]) :=
  ⟨fun _ _ => rfl, rfl, rfl⟩

/-- C4: dispatching the battery-level query internally performs the
status GET (the only effect is a GET of the status URL) and returns the
single field at `["status"]["2"]` of the parsed response body as the
reply, not the raw payload. -/
theorem battery_level_extracts_status_field
    (g : Gpc.GoPro) (http : String → Gpc.HttpResponse) (statusObj v : Gpc.Json)
    (h1 : Gpc.jsonIndex (http (statusUrl g)).body ("status") = .ok statusObj)
    (h2 : Gpc.jsonIndex statusObj ("2") = .ok v) :
    Gpc.Message.send_to http ⟨Gpc.CommandEnum.GET_BATTERY_LEVEL, []⟩ g =
      .ok (.json v, [.httpGet (statusUrl g)]) := by
  have hstep : Gpc.Message.send_to http ⟨Gpc.CommandEnum.GET_BATTERY_LEVEL, []⟩ g =
      (match Gpc.jsonIndex (http (statusUrl g)).body ("status") with
       | .error e => .error e
       | .ok statusObj =>
         match Gpc.jsonIndex statusObj ("2") with
         | .error e => .error e
         | .ok v => .ok (.json v, [Gpc.Effect.httpGet (statusUrl g)])) := rfl
  rw [hstep, h1]
  simp only [h2]

/-- C4 witness: against a mock status endpoint whose body parses to
`\x7b"status": \x7b"2": 87\x7d\x7d`, the battery-level reply is 87. -/
theorem battery_level_extracts_status_field_witness :
    Gpc.Message.send_to httpStatusMock ⟨Gpc.CommandEnum.GET_BATTERY_LEVEL, []⟩ g0 =
      .ok (.json (.num 87), [.httpGet (statusUrl g0)]) :=
  battery_level_extracts_status_field g0 httpStatusMock
    (Gpc.Json.obj [("2", Gpc.Json.num 87)]) (Gpc.Json.num 87) rfl rfl

/-- C5 counterexample: parsing an empty token sequence does not fail
with a recoverable ParseError — `message_text[0]` raises `IndexError`,
which the command loop's `except ValueError` does not catch. -/
theorem from_text_empty_not_emptyInput_cex :
    Gpc.Message.from_text [] = .error .indexError ∧
    Gpc.caughtByCommandLoop .indexError = false :=
  ⟨rfl, rfl⟩

/-- C5 (amended): `parse([])` fails with `IndexError` (from indexing the
first token), which is not recoverable by the command loop; the loop
itself never produces an empty token list, because splitting a blank
line yields the single token "", which fails with the recoverable
unknown-command `ValueError`. -/
theorem from_text_empty_raises_indexError :
    Gpc.Message.from_text [] = .error .indexError ∧
    Gpc.caughtByCommandLoop .indexError = false ∧
    Gpc.Message.from_text [""] = .error (.valueError (.unknownCommand "")) ∧
    Gpc.caughtByCommandLoop (.valueError (.unknownCommand "")) = true :=
  ⟨rfl, rfl, rfl, rfl⟩

/-- C6: for a session whose MAC address is 12 hexadecimal digits, the
wake sender builds a payload of 6 bytes of 0xFF followed by the 6-byte
MAC repeated 16 times — 102 bytes total, deterministic in the MAC — and
hands it to a UDP socket with the broadcast option enabled, addressed to
port 9 at the session's IP address. -/
theorem send_wake_on_lan_magic_packet (g : Gpc.GoPro)
    (hlen : g.mac_address.length = 12)
    (hhex : ∀ c ∈ g.mac_address.data, (Gpc.hexVal c).isSome = true) :
    ∃ (macBytes : List Nat) (u : Gpc.UdpSend),
      Gpc.bytesFromHex g.mac_address.data = some macBytes ∧
      macBytes.length = 6 ∧
      Gpc.send_wake_on_lan g = some u ∧
      u.payload = List.replicate 6 255 ++ List.flatten (List.replicate 16 macBytes) ∧
      u.payload.length = 102 ∧
      u.dest_ip = g.ip_address ∧ u.dest_port = 9 ∧ u.broadcast = true := by
  have hlen' : g.mac_address.data.length = 12 := hlen
  obtain ⟨mb, hmb, hmblen⟩ :=
    bytesFromHex_total g.mac_address.data (by rw [hlen']) hhex
  rw [hlen'] at hmblen
  have hff : Gpc.bytesFromHex ("FFFFFFFFFFFF".data) = some (List.replicate 6 255) := by decide
  have hrep := bytesFromHex_strRepeat g.mac_address mb hmb 16
  have hsend : Gpc.send_wake_on_lan g =
      some ⟨List.replicate 6 255 ++ List.flatten (List.replicate 16 mb),
            g.ip_address, 9, true⟩ := by
    show (Gpc.bytesFromHex ("FFFFFFFFFFFF" ++ Gpc.strRepeat g.mac_address 16).data).map
        (fun payload => (⟨payload, g.ip_address, 9, true⟩ : Gpc.UdpSend)) = _
    rw [String.data_append, bytesFromHex_append _ _ _ hff, hrep]
    rfl
  refine ⟨mb, _, hmb, hmblen, hsend, rfl, ?_, rfl, rfl, rfl⟩
  rw [List.length_append, List.length_replicate, length_flatten_replicate, hmblen]

/-- C6 witness: the session `g0` with MAC "AABBCCDDEEFF" satisfies the
hypotheses, and its wake packet is the 102-byte magic packet. -/
theorem send_wake_on_lan_magic_packet_witness :
    ∃ (macBytes : List Nat) (u : Gpc.UdpSend),
      Gpc.bytesFromHex g0.mac_address.data = some macBytes ∧
      macBytes.length = 6 ∧
      Gpc.send_wake_on_lan g0 = some u ∧
      u.payload = List.replicate 6 255 ++ List.flatten (List.replicate 16 macBytes) ∧
      u.payload.length = 102 ∧
      u.dest_ip = g0.ip_address ∧ u.dest_port = 9 ∧ u.broadcast = true :=
  send_wake_on_lan_magic_packet g0 (by decide) (by decide)

/-- C7: dispatching the WAKE command performs no HTTP call — its only
effect is the wake sender's UDP broadcast — and it returns the empty
reply, which is falsy, so the command loop prints nothing. -/
theorem wake_command_no_http_empty_reply
    (g : Gpc.GoPro) (http : String → Gpc.HttpResponse) (u : Gpc.UdpSend)
    (h : Gpc.send_wake_on_lan g = some u) :
    Gpc.Message.send_to http ⟨Gpc.CommandEnum.WAKE, []⟩ g =
      .ok (.str "", [.wolSend u]) ∧
    Gpc.replyTruthy (.str "") = false ∧
    (∀ url, Gpc.Effect.httpGet url ∉ [Gpc.Effect.wolSend u]) := by
  refine ⟨?_, rfl, by simp⟩
  show (match Gpc.send_wake_on_lan g with
    | some u => Except.ok ((Gpc.Reply.str ""), [Gpc.Effect.wolSend u])
    | none => Except.error Gpc.PyExc.fromhexValueError) = _
  rw [h]

/-- C7 witness: for the concrete session `g0`, the WAKE dispatch yields
the empty reply and only the wake datagram `uW`. -/
theorem wake_command_no_http_empty_reply_witness :
    Gpc.Message.send_to http200 ⟨Gpc.CommandEnum.WAKE, []⟩ g0 =
      .ok (.str "", [.wolSend uW]) ∧
    Gpc.replyTruthy (.str "") = false ∧
    (∀ url, Gpc.Effect.httpGet url ∉ [Gpc.Effect.wolSend uW]) :=
  wake_command_no_http_empty_reply g0 http200 uW (by decide)

/-- C8: URL rendering substitutes the message's arguments positionally
into the template appended to the session base URL, and is injective in
the argument for the one-placeholder video_resolution template; parsing
`video_resolution 4k` maps to code "1" and renders a URL ending in
`/setting/2/1`, and `video_resolution 1080p` maps to code "9" and
renders one ending in `/setting/2/9`. -/
theorem video_resolution_url_rendering :
    (∀ (g : Gpc.GoPro) (a b : String),
      Gpc.Message.build_url ⟨Gpc.CommandEnum.VIDEO_RESOLUTION, [a]⟩ g =
        Gpc.Message.build_url ⟨Gpc.CommandEnum.VIDEO_RESOLUTION, [b]⟩ g → a = b) ∧
    Gpc.Message.from_text ["video_resolution", "4k"] =
      .ok ⟨Gpc.CommandEnum.VIDEO_RESOLUTION, ["1"]⟩ ∧
    Gpc.Message.from_text ["video_resolution", "1080p"] =
      .ok ⟨Gpc.CommandEnum.VIDEO_RESOLUTION, ["9"]⟩ ∧
    Gpc.Message.build_url ⟨Gpc.CommandEnum.VIDEO_RESOLUTION, ["1"]⟩ g0 =
      some ("http://10.5.5.9/gp/gpControl" ++ "/setting/2/1") ∧
    Gpc.Message.build_url ⟨Gpc.CommandEnum.VIDEO_RESOLUTION, ["9"]⟩ g0 =
      some ("http://10.5.5.9/gp/gpControl" ++ "/setting/2/9") := by
  refine ⟨?_, rfl, rfl, by decide, by decide⟩
  intro g a b h
  have h3 : ("http://".data ++ g.ip_address.data ++ "/gp/gpControl".data) ++
      ("/setting/2/".data ++ (a.data ++ [])) =
      ("http://".data ++ g.ip_address.data ++ "/gp/gpControl".data) ++
      ("/setting/2/".data ++ (b.data ++ [])) := congrArg String.data (Option.some.inj h)
  have h5 := List.append_cancel_left (List.append_cancel_left h3)
  have h6 : a.data = b.data := by simpa using h5
  exact congrArg String.mk h6

/-- C8 witness: the injectivity conjunct applied at the concrete session
`g0` with both arguments "1". -/
theorem video_resolution_url_rendering_witness : ("1" : String) = ("1" : String) :=
  video_resolution_url_rendering.1 g0 ("1") ("1") rfl

/-- C9 counterexample: observing the keepalive loop for two ticks with
every send failing, only one send is attempted and the loop is no longer
running — the claim that a failed send leaves the loop continuing to the
next tick is false (a healthy oracle, by contrast, completes both ticks
with the loop still running). -/
theorem keepalive_send_failure_stops_loop_cex :
    Gpc.keepaliveRun (fun _ => false) 2 0 = (1, false) ∧
    Gpc.keepaliveRun (fun _ => true) 2 0 = (2, true) :=
  ⟨rfl, rfl⟩

/-- C9 (amended): a failure of the keepalive loop's UDP send on one tick
terminates the loop — the loop body has no exception handler, so the
failed tick is the last one and no further send is attempted within any
remaining observation window. -/
theorem keepalive_send_failure_stops_loop (ok : Nat → Bool) (fuel t : Nat)
    (h : ok t = false) :
    Gpc.keepaliveRun ok (fuel + 1) t = (1, false) := by
  simp [Gpc.keepaliveRun, h]

/-- C9 witness: the amended loop-termination theorem applied to an
oracle failing on the first tick. -/
theorem keepalive_send_failure_stops_loop_witness :
    Gpc.keepaliveRun (fun _ => false) 1 0 = (1, false) :=
  keepalive_send_failure_stops_loop (fun _ => false) 0 0 rfl

/-- C10: in the GoPro.py variant's catalog, the definition of
GET_BATTERY_LIFE coincides with that of DISPLAY_OFF (template
`setting/58/0`); consequently the two commands render identical URLs for
every session, and dispatching GET_BATTERY_LIFE issues exactly the
display-off GET rather than a battery query. -/
theorem gopro_battery_life_equals_display_off :
    Gpc.dictFind GoProV.definitions GoProV.CommandEnum.GET_BATTERY_LIFE =
      Gpc.dictFind GoProV.definitions GoProV.CommandEnum.DISPLAY_OFF ∧
    Gpc.dictFind GoProV.definitions GoProV.CommandEnum.GET_BATTERY_LIFE =
      some ⟨0, "setting/58/0", none⟩ ∧
    (∀ g : Gpc.GoPro,
      GoProV.build_url g GoProV.CommandEnum.GET_BATTERY_LIFE [] =
        GoProV.build_url g GoProV.CommandEnum.DISPLAY_OFF [] ∧
      GoProV.send_to g GoProV.CommandEnum.GET_BATTERY_LIFE [] =
        GoProV.send_to g GoProV.CommandEnum.DISPLAY_OFF [] ∧
      GoProV.build_url g GoProV.CommandEnum.GET_BATTERY_LIFE [] =
        some ("http://" ++ g.ip_address ++ "/gp/gpControl/" ++ "setting/58/0")) :=
  ⟨rfl, rfl, fun _ => ⟨rfl, rfl, rfl⟩⟩
